import Mathlib

/-!
Shallow embedding of the `bignum` Go package (fixed-point decimal arithmetic
on arbitrary-precision integers) and proofs about its behaviour.

The embedding follows the package source line by line:

* `BigNum` models the draft that carries a cached `value` field
  (`NewBigNumber`, `Add`, `Subtract`, `Multiply`, `Divide`, `Modulo`,
  `applyRounding`, the comparison methods, `String`, `Exp`, `Log`).
* `BigNum.V2` models the second draft's `applyRounding`/`Round` pair, which
  takes a target precision instead of a raw integer.

Go's `*big.Int` is modelled as `Int`; a `*big.Int` field that may be nil
(never assigned by the constructor on the `inf`/`nan` paths) is modelled as
`Option Int`, with `none` standing for the nil pointer.  Go strings are
modelled as `List Char` so that every string operation is structurally
recursive and computable by the kernel.  `big.Int.Div` and `big.Int.Mod`
implement Euclidean division, so they are modelled with `Int.ediv` /
`Int.emod`; both panic in Go when the divisor is zero.  Operations that can
return an error, panic, or (in the model of the convergence loops) exhaust
their explicit fuel return an `Outcome`.
-/

namespace BigNum

/-- Rounding modes, in the order the Go constants are declared. -/
inductive RoundingMode : Type
| RoundUp
| RoundDown
| RoundToNearest
| RoundToEven
deriving DecidableEq

/-- Error kinds, in the order the Go constants are declared. -/
inductive ErrorType : Type
| OverflowError
| PrecisionError
| DivisionByZeroError
| InvalidInputError
| UndefinedOperationError
deriving DecidableEq

/-- The `BigNumber` struct.  `positive`, `negative` and `value` are
`*big.Int` pointers in Go and are nil (`none`) for the special values
produced by parsing `"inf"` / `"nan"`. -/
structure BigNumber : Type where
  positive : Option Int
  negative : Option Int
  precision : Nat
  rounding : RoundingMode
  isInf : Bool
  isNan : Bool
  value : Option Int
deriving DecidableEq

/-- Result of running a Go operation: a value, a returned `BigNumberError`
of the given kind, a runtime panic (nil dereference or division by zero),
or - only for the modelled convergence loops - exhaustion of the explicit
fuel given to the model (the Go source has no such bound). -/
inductive Outcome (α : Type) : Type
| ok (a : α) : Outcome α
| err (e : ErrorType) : Outcome α
| crash : Outcome α
| nofuel : Outcome α
deriving DecidableEq

/-- `big.Int.Exp(10, n, nil)`: the scale factor `10 ^ n`. -/
def tenPow : Nat → Int
  | 0 => 1
  | n + 1 => 10 * tenPow n

/-- `strings.Split(str, ".")` for a one-character separator: the segments
between the dots, keeping empty segments. -/
def splitOnDot : List Char → List Char → List (List Char)
  | [], acc => [acc.reverse]
  | c :: cs, acc =>
    if c = '.' then acc.reverse :: splitOnDot cs []
    else splitOnDot cs (c :: acc)

/-- The digits of a nonempty all-digit character run as a natural number. -/
def digitsToNat : List Char → Option Nat
  | [] => none
  | l =>
    if l.all Char.isDigit then
      some (l.foldl (fun n c => n * 10 + (c.toNat - 48)) 0)
    else none

/-- `big.Int.SetString(s, 10)`: an optional sign followed by a nonempty run
of decimal digits; anything else fails. -/
def setString (s : List Char) : Option Int :=
  match s with
  | '-' :: rest => (digitsToNat rest).map (fun n => -(n : Int))
  | '+' :: rest => (digitsToNat rest).map (fun n => (n : Int))
  | _ => (digitsToNat s).map (fun n => (n : Int))

/-- One decimal digit as a character (`big.Int` renders base 10). -/
def digitChar (n : Nat) : Char :=
  match n with
  | 0 => '0' | 1 => '1' | 2 => '2' | 3 => '3' | 4 => '4'
  | 5 => '5' | 6 => '6' | 7 => '7' | 8 => '8' | _ => '9'

/-- Decimal digits of a natural number, most significant first; the first
argument is fuel bounding the digit count. -/
def natDigitsAux : Nat → Nat → List Char → List Char
  | 0, _, acc => acc
  | fuel + 1, n, acc =>
    let acc := digitChar (n % 10) :: acc
    if n < 10 then acc else natDigitsAux fuel (n / 10) acc

/-- `big.Int.String()` for a non-negative value: its decimal digits
(`"0"` for zero). -/
def natToDigits (n : Nat) : List Char :=
  natDigitsAux (n + 1) n []

/-- `big.Int.String()`: a leading minus sign for negative values. -/
def intToDigits (v : Int) : List Char :=
  if v < 0 then '-' :: natToDigits v.natAbs else natToDigits v.natAbs

/-- `NewBigNumber(str, precision, rounding)`.  Mirrors the Go control flow:
case-insensitive `"inf"`/`"nan"`, empty-string error, split on `"."`,
sign taken from the first byte of the integer part (indexing an empty
integer part panics), `SetString` on the integer part with its error
checked, `SetString` on the full decimal part with its error ignored,
string-level truncation of the decimal part to `precision` digits, scaling
by `10 ^ (precision - len(decimalPart))`, and finally the positive/negative
assignment that swaps the two parts on a negative sign and stores
`value = positive - negative`. -/
def NewBigNumber (str : List Char) (precision : Nat) (rounding : RoundingMode) :
    Outcome BigNumber :=
  if str.map Char.toLower = [ 'i', 'n', 'f' ] then
    .ok { positive := none, negative := none, precision := precision,
          rounding := rounding, isInf := true, isNan := false, value := none }
  else if str.map Char.toLower = [ 'n', 'a', 'n' ] then
    .ok { positive := none, negative := none, precision := precision,
          rounding := rounding, isInf := false, isNan := true, value := none }
  else if str = [] then .err .InvalidInputError
  else
    let parts := splitOnDot str []
    let integerPart0 := parts.headD []
    let decimalPart0 := if parts.length > 1 then parts.getD 1 [] else []
    match integerPart0 with
    | [] => .crash
    | c0 :: rest =>
      let neg := c0 = '-'
      let integerPart := if neg then rest else c0 :: rest
      match setString integerPart with
      | none => .err .InvalidInputError
      | some integerBigInt =>
        let decimalBigInt : Int :=
          if decimalPart0.length > 0 then
            -- Go ignores SetString's failure flag here; on failure the
            -- receiver is unspecified and we model it as 0.
            let d := ((setString decimalPart0).getD 0)
            let decimalPart :=
              if decimalPart0.length > precision then decimalPart0.take precision
              else decimalPart0
            d * tenPow (precision - decimalPart.length)
          else 0
        let positive := if neg then decimalBigInt else integerBigInt
        let negative := if neg then integerBigInt else decimalBigInt
        .ok { positive := some positive, negative := some negative,
              precision := precision, rounding := rounding,
              isInf := false, isNan := false,
              value := some (positive - negative) }

/-- `scaleForPrecision`: `10 ^ bn.precision`. -/
def scaleForPrecision (bn : BigNumber) : Int :=
  tenPow bn.precision

/-- `applyRounding(value)`.  The switch only handles `RoundToNearest` and
`RoundToEven`; the other modes return the value unchanged.  In the
`RoundToEven` case every step mutates `value` in place, including the two
subexpressions of the tie test, so the returned integer is whatever those
mutations leave behind. -/
def applyRounding (bn : BigNumber) (value : Int) : Int :=
  match bn.rounding with
  | .RoundToNearest =>
    let halfScaleFactor := (scaleForPrecision bn).ediv 2
    (value + halfScaleFactor).ediv (scaleForPrecision bn)
  | .RoundToEven =>
    let halfScaleFactor := (scaleForPrecision bn).ediv 2
    let v1 := (value + halfScaleFactor).ediv (scaleForPrecision bn)
    -- value.Mod(value, 10) overwrites value with v1 % 10 while testing it
    let v2 := v1.emod 10
    if v2 = 5 then
      -- value.Div(value, 10).Mod(value, 2) overwrites it again with
      -- (5 / 10) % 2 = 0; the comparison with 1 then fails
      let v3 := (v2.ediv 10).emod 2
      if v3 = 1 then v3 + 1 else v3
    else v2
  | _ => value

/-- `IsZero`: dereferences `value` (`none` models the nil-pointer panic). -/
def IsZero (bn : BigNumber) : Option Bool :=
  bn.value.map (fun v => decide (v = 0))

/-- `checkPrecision`: `PrecisionError` when the precisions differ. -/
def checkPrecision (bn other : BigNumber) : Option ErrorType :=
  if bn.precision ≠ other.precision then some .PrecisionError else none

/-- `checkSpecialCases(bn, other)`: `UndefinedOperationError` on any
infinity or NaN, and also when both operands are zero; `IsZero` is
short-circuited exactly as `&&` evaluates it in Go. -/
def checkSpecialCases (bn other : BigNumber) : Outcome Unit :=
  if bn.isInf || other.isInf then .err .UndefinedOperationError
  else if bn.isNan || other.isNan then .err .UndefinedOperationError
  else
    match IsZero bn with
    | none => .crash
    | some false => .ok ()
    | some true =>
      match IsZero other with
      | none => .crash
      | some true => .err .UndefinedOperationError
      | some false => .ok ()

/-- `checkOperands`: precision check, then the special-case check. -/
def checkOperands (bn other : BigNumber) : Outcome Unit :=
  match checkPrecision bn other with
  | some e => .err e
  | none => checkSpecialCases bn other

/-- `Add`: adds the positive parts and the negative parts separately,
stores `value = positive - negative`, then applies the LEFT operand's
rounding at the left operand's precision.  Dereferencing a nil part
panics. -/
def Add (bn other : BigNumber) : Outcome BigNumber :=
  match checkOperands bn other with
  | .err e => .err e
  | .crash => .crash
  | .nofuel => .nofuel
  | .ok _ =>
    match bn.positive, bn.negative, other.positive, other.negative with
    | some p1, some n1, some p2, some n2 =>
      let rp := p1 + p2
      let rn := n1 + n2
      .ok { positive := some rp, negative := some rn,
            precision := bn.precision, rounding := bn.rounding,
            isInf := false, isNan := false,
            value := some (applyRounding bn (rp - rn)) }
    | _, _, _, _ => .crash

/-- `Subtract`: like `Add` with the parts subtracted. -/
def Subtract (bn other : BigNumber) : Outcome BigNumber :=
  match checkOperands bn other with
  | .err e => .err e
  | .crash => .crash
  | .nofuel => .nofuel
  | .ok _ =>
    match bn.positive, bn.negative, other.positive, other.negative with
    | some p1, some n1, some p2, some n2 =>
      let rp := p1 - p2
      let rn := n1 - n2
      .ok { positive := some rp, negative := some rn,
            precision := bn.precision, rounding := bn.rounding,
            isInf := false, isNan := false,
            value := some (applyRounding bn (rp - rn)) }
    | _, _, _, _ => .crash

/-- `Multiply`: runs the same `checkOperands` (so it too requires equal
precision), multiplies the parts, sets the result precision to the SUM of
the operand precisions, and applies the left operand's rounding at the
left operand's precision. -/
def Multiply (bn other : BigNumber) : Outcome BigNumber :=
  match checkOperands bn other with
  | .err e => .err e
  | .crash => .crash
  | .nofuel => .nofuel
  | .ok _ =>
    match bn.positive, bn.negative, other.positive, other.negative with
    | some p1, some n1, some p2, some n2 =>
      let rp := p1 * p2
      let rn := n1 * n2
      .ok { positive := some rp, negative := some rn,
            precision := bn.precision + other.precision,
            rounding := bn.rounding,
            isInf := false, isNan := false,
            value := some (applyRounding bn (rp - rn)) }
    | _, _, _, _ => .crash

/-- `Divide`: precision check, special cases, `DivisionByZeroError` when
the divisor's `value` is zero; after that, `big.Int.Div` panics on any
zero scaled divisor part, and otherwise the code builds the quotient via
`NewBigNumber("")`, which returns a nil pointer whose field it then
writes, so every remaining path panics. -/
def Divide (bn other : BigNumber) : Outcome BigNumber :=
  match checkPrecision bn other with
  | some e => .err e
  | none =>
    match checkSpecialCases bn other with
    | .err e => .err e
    | .crash => .crash
    | .nofuel => .nofuel
    | .ok _ =>
      match IsZero other with
      | none => .crash
      | some true => .err .DivisionByZeroError
      | some false =>
        match bn.positive, bn.negative, other.positive, other.negative with
        | some _, some _, some sp, some sn =>
          let scaleFactor := scaleForPrecision bn
          if sp * scaleFactor = 0 then .crash
          else if sn * scaleFactor = 0 then .crash
          else
            -- quotient, _ := NewBigNumber("", ...) discards the error and
            -- leaves quotient nil; quotient.positive = ... then panics
            .crash
        | _, _, _, _ => .crash

/-- `Modulo`: the same checks as `Divide`; `big.Int.Mod` panics on a zero
scaled divisor part, and the remainder is likewise built from the nil
pointer returned by `NewBigNumber("")`, so every remaining path panics. -/
def Modulo (bn other : BigNumber) : Outcome BigNumber :=
  match checkPrecision bn other with
  | some e => .err e
  | none =>
    match checkSpecialCases bn other with
    | .err e => .err e
    | .crash => .crash
    | .nofuel => .nofuel
    | .ok _ =>
      match IsZero other with
      | none => .crash
      | some true => .err .DivisionByZeroError
      | some false =>
        match bn.positive, bn.negative, other.positive, other.negative with
        | some _, some _, some sp, some sn =>
          let scaleFactor := scaleForPrecision bn
          if sp * scaleFactor = 0 then .crash
          else if sn * scaleFactor = 0 then .crash
          else
            -- remainder, _ := NewBigNumber("", ...) is nil; writing
            -- remainder.positive panics
            .crash
        | _, _, _, _ => .crash

/-- `Equal`: two infinities or two NaNs compare equal; otherwise the
`value` fields are dereferenced and compared (`none` models the nil
dereference of a special value's magnitude). -/
def Equal (bn other : BigNumber) : Option Bool :=
  if (bn.isInf && other.isInf) || (bn.isNan && other.isNan) then some true
  else
    match bn.value, other.value with
    | some v1, some v2 => some (decide (v1 = v2))
    | _, _ => none

/-- `LessThan`: `false` for two infinities or two NaNs, else a `value`
comparison with the same nil-dereference behaviour as `Equal`. -/
def LessThan (bn other : BigNumber) : Option Bool :=
  if (bn.isInf && other.isInf) || (bn.isNan && other.isNan) then some false
  else
    match bn.value, other.value with
    | some v1, some v2 => some (decide (v1 < v2))
    | _, _ => none

/-- `GreaterThan`: `false` for two infinities or two NaNs, else a `value`
comparison. -/
def GreaterThan (bn other : BigNumber) : Option Bool :=
  if (bn.isInf && other.isInf) || (bn.isNan && other.isNan) then some false
  else
    match bn.value, other.value with
    | some v1, some v2 => some (decide (v2 < v1))
    | _, _ => none

/-- `LessOrEqual`: `true` for two infinities or two NaNs, else a `value`
comparison. -/
def LessOrEqual (bn other : BigNumber) : Option Bool :=
  if (bn.isInf && other.isInf) || (bn.isNan && other.isNan) then some true
  else
    match bn.value, other.value with
    | some v1, some v2 => some (decide (v1 ≤ v2))
    | _, _ => none

/-- `GreaterOrEqual`: `true` for two infinities or two NaNs, else a
`value` comparison. -/
def GreaterOrEqual (bn other : BigNumber) : Option Bool :=
  if (bn.isInf && other.isInf) || (bn.isNan && other.isNan) then some true
  else
    match bn.value, other.value with
    | some v1, some v2 => some (decide (v2 ≤ v1))
    | _, _ => none

/-- The Go `String()` method: `"Infinity"`/`"NaN"` for special values;
otherwise the sign, the decimal digits of `|value|`, and a decimal point
inserted `precision` digits from the right (zero-padded on the left when
there are too few digits).  When `precision` is zero the digits are
DISCARDED and the literal `"0"` is rendered.  A nil `value` (`none`)
panics. -/
def toDecimalString (bn : BigNumber) : Option (List Char) :=
  if bn.isInf then some ("Infinity".data)
  else if bn.isNan then some ("NaN".data)
  else
    match bn.value with
    | none => none
    | some v =>
      let sign : List Char := if v < 0 then [ '-' ] else []
      let str := natToDigits v.natAbs
      let body :=
        if bn.precision > 0 then
          let decimalIndex : Int := (str.length : Int) - (bn.precision : Int)
          if decimalIndex < 0 then
            List.replicate (-decimalIndex).toNat '0' ++ [ '.' ] ++ str
          else if decimalIndex = 0 then '0' :: '.' :: str
          else str.take decimalIndex.toNat ++ [ '.' ] ++ str.drop decimalIndex.toNat
        else [ '0' ]
      some (sign ++ body)

/-- The Taylor loop inside `Exp`: `term = (term * x) / i`, `result += term`,
stop once `term < 1`.  The Go loop has no iteration bound; the `fuel`
argument is an artifact of the model and `none` means it was exhausted. -/
def expLoop (x : Int) : Nat → Int → Int → Nat → Option Int
  | 0, _, _, _ => none
  | Nat.succ fuel, term, result, i =>
    let term := (term * x).ediv (i : Int)
    let result := result + term
    if term < 1 then some result
    else expLoop x fuel term result (i + 1)

/-- `Exp`: NaN passthrough for special values, the Taylor loop on `value`
starting from `term = result = 1`, `i = 1`, then a re-parse of the decimal
string of the accumulated integer followed by one more `applyRounding` at
the operand's precision. -/
def Exp (fuel : Nat) (bn : BigNumber) : Outcome BigNumber :=
  if bn.isInf || bn.isNan then
    .ok { positive := none, negative := none, precision := bn.precision,
          rounding := bn.rounding, isInf := false, isNan := true,
          value := none }
  else
    match bn.value with
    | none => .crash
    | some x =>
      match expLoop x fuel 1 1 1 with
      | none => .nofuel
      | some resultInt =>
        match NewBigNumber (intToDigits resultInt) bn.precision bn.rounding with
        | .ok result =>
          .ok { result with
                value := result.value.map (applyRounding bn) }
        | _ => .crash

/-- The Newton loop inside `Log`: `delta = (expY - x) / expY` (a Euclidean
division that panics when `expY` is zero), `y -= delta`, stop once
`delta < 1`, else recompute `expY` as `bn.Exp()` re-rounded - note the Go
code exponentiates `bn` itself, not the current iterate, so `expY` never
changes between iterations.  The Go loop has no iteration bound; `fuel`
is an artifact of the model. -/
def logLoop (bn : BigNumber) (x : Int) : Nat → Int → Int → Outcome Int
  | 0, _, _ => .nofuel
  | Nat.succ fuel, expY, y =>
    if expY = 0 then .crash
    else
      let delta := (expY - x).ediv expY
      let y := y - delta
      if delta < 1 then .ok y
      else
        match Exp fuel bn with
        | .nofuel => .nofuel
        | .ok e =>
          match e.value with
          | none => .crash
          | some ev => logLoop bn x fuel (applyRounding bn ev) y
        | _ => .crash

/-- `Log`: NaN passthrough for special values, `UndefinedOperationError`
on zero or negative operands, then Newton iteration seeded with `y = 1`
and `expY = bn.Exp()` re-rounded, and finally a re-parse of `y`'s decimal
string followed by one more `applyRounding`. -/
def Log (fuel : Nat) (bn : BigNumber) : Outcome BigNumber :=
  if bn.isInf || bn.isNan then
    .ok { positive := none, negative := none, precision := bn.precision,
          rounding := bn.rounding, isInf := false, isNan := true,
          value := none }
  else
    match bn.value with
    | none => .crash
    | some x =>
      if x = 0 then .err .UndefinedOperationError
      else if x < 0 then .err .UndefinedOperationError
      else
        match Exp fuel bn with
        | .nofuel => .nofuel
        | .ok expY0 =>
          match expY0.value with
          | none => .crash
          | some e0 =>
            match logLoop bn x fuel (applyRounding bn e0) 1 with
            | .nofuel => .nofuel
            | .crash => .crash
            | .err e => .err e
            | .ok y =>
              match NewBigNumber (intToDigits y) bn.precision bn.rounding with
              | .ok result =>
                .ok { result with
                      value := result.value.map (applyRounding bn) }
              | _ => .crash
        | _ => .crash

namespace V2

/-- The second draft's `applyRounding(precision)`: returns the receiver
unchanged at equal precision, otherwise multiplies `value` by
`10 ^ targetPrecision` and divides it back out under the stored mode, so
the stored magnitude is never rescaled between the two precisions.  The
returned error is always nil in the source. -/
def applyRounding (bn : BigNumber) (precision : Nat) : Outcome BigNumber :=
  if precision = bn.precision then .ok bn
  else
    match bn.value with
    | none => .crash
    | some v =>
      let scaleFactor : Int := tenPow precision
      let scaledValue := v * scaleFactor
      let newValue : Int :=
        match bn.rounding with
        | .RoundUp => (scaledValue + 1).ediv scaleFactor
        | .RoundDown => scaledValue.ediv scaleFactor
        | .RoundToNearest =>
          (scaledValue + scaleFactor.ediv 2).ediv scaleFactor
        | .RoundToEven =>
          let s1 := scaledValue + scaleFactor.ediv 2
          let q := s1.ediv scaleFactor
          -- the tie test mutates scaledValue, not the result: s1 % 10,
          -- then (that) / 10 % 2, compared with 5 and 1
          let m := s1.emod 10
          if m = 5 ∧ ((m.ediv 10).emod 2 = 1) then q + 1 else q
      .ok { positive := none, negative := none, precision := precision,
            rounding := bn.rounding, isInf := false, isNan := false,
            value := some newValue }

/-- The second draft's `Round(precision)`: identity at equal precision,
otherwise `applyRounding` (whose error branch is dead code). -/
def Round (bn : BigNumber) (precision : Nat) : Outcome BigNumber :=
  if precision = bn.precision then .ok bn
  else applyRounding bn precision

end V2

/-- Convenience projection used only to state concrete facts: the parsed
value of a string that is known to parse successfully. -/
def parseD (s : String) (p : Nat) (r : RoundingMode) : BigNumber :=
  match NewBigNumber s.data p r with
  | .ok bn => bn
  | _ => { positive := none, negative := none, precision := p, rounding := r,
           isInf := false, isNan := false, value := none }

/-- Convenience projection used only to state concrete facts: the `value`
field of a successful outcome. -/
def valueOf : Outcome BigNumber → Option Int
  | .ok bn => bn.value
  | _ => none

/-- Convenience projection used only to state concrete facts: the rendering
of a successful outcome, repackaged as a `String`. -/
def renderOf : Outcome BigNumber → Option String
  | .ok bn => (toDecimalString bn).map (fun l => String.mk l)
  | _ => none

/-- Convenience projection used only to state concrete facts: the
`precision` field of a successful outcome. -/
def precisionOf : Outcome BigNumber → Option Nat
  | .ok bn => some bn.precision
  | _ => none

/-- The magnitude that `Add`/`Subtract` actually store, as a function of the
left operand's rounding mode, written out mode by mode: `RoundUp` and
`RoundDown` keep the raw sum or difference `s`; `RoundToNearest` stores
`(s + 10^p / 2) / 10^p`; `RoundToEven` computes that same quotient but then
stores its remainder modulo 10, or `0` when that remainder is `5`. -/
def storedMagnitude (mode : RoundingMode) (p : Nat) (s : Int) : Int :=
  match mode with
  | .RoundUp => s
  | .RoundDown => s
  | .RoundToNearest => (s + (tenPow p).ediv 2).ediv (tenPow p)
  | .RoundToEven =>
    let q := (s + (tenPow p).ediv 2).ediv (tenPow p)
    if q.emod 10 = 5 then 0 else q.emod 10

/-- `applyRounding` computes exactly `storedMagnitude` of the stored
rounding mode and precision. -/
theorem applyRounding_eq_storedMagnitude (bn : BigNumber) (v : Int) :
    applyRounding bn v = storedMagnitude bn.rounding bn.precision v := by
  cases h : bn.rounding <;>
    simp only [applyRounding, storedMagnitude, scaleForPrecision, h]
  by_cases h5 : ((v + (tenPow bn.precision).ediv 2).ediv (tenPow bn.precision)).emod 10 = 5
  · simp [h5]
    decide
  · simp [h5]

/-- C1: the claim states that parsing a grammar-conforming string at
precision `p` stores `magnitude = sign * (integerDigits * 10^p +
fractionalDigitsAsInteger)`.  The code instead stores the integer digits
UNSCALED in one part and the scaled fraction in the other and subtracts
them: `"123.45"` at precision 2 is stored with positive part 123, negative
part 45 and magnitude `123 - 45 = 78`, not `12345`. -/
theorem C1_parse_magnitude :
    NewBigNumber ( "123.45".data) 2 .RoundToNearest =
      .ok { positive := some 123, negative := some 45, precision := 2,
            rounding := .RoundToNearest, isInf := false, isNan := false,
            value := some 78 }
    ∧ (78 : Int) ≠ 1 * (123 * tenPow 2 + 45) := by
  exact ⟨by decide, by decide⟩

/-- C2: the claim states that `Add` at equal precision stores exactly the
sum of the operands' magnitudes and that `parse("123.4567",4) +
parse("8.9012",4)` renders `"132.3579"`.  The code parses the operands to
magnitudes `-4444` and `-9004`, and `Add` under the left operand's
`RoundToNearest` mode divides the raw sum `-13448` by `10^4`, storing `-1`,
which renders `"-000.1"`. -/
theorem C2_add_scenario :
    valueOf (Add (parseD "123.4567" 4 .RoundToNearest)
        (parseD "8.9012" 4 .RoundToNearest)) = some (-1)
    ∧ renderOf (Add (parseD "123.4567" 4 .RoundToNearest)
        (parseD "8.9012" 4 .RoundToNearest)) = some "-000.1"
    ∧ valueOf (NewBigNumber ( "123.4567".data) 4 .RoundToNearest) = some (-4444)
    ∧ valueOf (NewBigNumber ( "8.9012".data) 4 .RoundToNearest) = some (-9004)
    ∧ ((-1 : Int) ≠ -4444 + -9004)
    ∧ ("-000.1" : String) ≠ "132.3579" := by
  refine ⟨by decide, by decide, by decide, by decide, by decide, by decide⟩

/-- C3: the claim states that `Round(t)` rescales the magnitude to `t`
fractional digits (so increasing precision is lossless and
`parse("123.456789",5).Round(2)` under RoundToNearest renders `"123.46"`).
The second draft's `Round` never rescales between the two precisions: it
multiplies the magnitude by `10^t` and divides `10^t` right back out, so
the scenario keeps the (already sign-corrupted) magnitude `-456666` and
renders `"-4566.66"`, and rounding `"123.45"` at precision 2 UP to
precision 4 keeps magnitude 78, silently dividing the value by 100. -/
theorem C3_round_scenario :
    valueOf (V2.Round (parseD "123.456789" 5 .RoundToNearest) 2) = some (-456666)
    ∧ renderOf (V2.Round (parseD "123.456789" 5 .RoundToNearest) 2) = some "-4566.66"
    ∧ ("-4566.66" : String) ≠ "123.46"
    ∧ valueOf (V2.Round (parseD "123.45" 2 .RoundToNearest) 4) = some 78 := by
  refine ⟨by decide, by decide, by decide, by decide⟩

/-- C4: the claim states that `Divide` on finite operands of equal
precision with a nonzero divisor returns a quotient and never crashes.
In the code, any such division panics: either `big.Int.Div` divides by a
zero scaled divisor part (as for `6 / 2`, whose fractional parts are 0),
or the quotient is built from the nil pointer that `NewBigNumber("")`
returns and the field write dereferences nil (as for `123.45 / 67.89`). -/
theorem C4_divide_crash :
    Divide (parseD "123.45" 2 .RoundToNearest)
        (parseD "67.89" 2 .RoundToNearest) = .crash
    ∧ Divide (parseD "6" 2 .RoundToNearest)
        (parseD "2" 2 .RoundToNearest) = .crash := by
  refine ⟨by decide, by decide⟩

/-- C5: the claim states that `Multiply` never fails with a `Precision`
error when the operand precisions differ.  `Multiply` runs the same
`checkOperands` as `Add`, so multiplying a precision-2 value by a
precision-3 value returns `PrecisionError`; only at equal precisions does
it succeed, with result precision `p1 + p2`. -/
theorem C5_multiply_precision :
    Multiply (parseD "123.45" 2 .RoundToNearest)
        (parseD "67.890" 3 .RoundToNearest) = .err .PrecisionError
    ∧ precisionOf (Multiply (parseD "123.45" 2 .RoundToNearest)
        (parseD "67.89" 2 .RoundToNearest)) = some 4 := by
  refine ⟨by decide, by decide⟩

/-- C6 counterexample: the claim states that `Divide(a, zero)` and
`Modulo(a, zero)` fail `DivisionByZero` for every finite `a` INCLUDING
zero; but for a zero dividend `checkSpecialCases` fires first and both
operations fail `UndefinedOperation` instead. -/
theorem C6_both_zero_counterexample :
    Divide (parseD "0" 2 .RoundToNearest) (parseD "0" 2 .RoundToNearest) =
        .err .UndefinedOperationError
    ∧ Modulo (parseD "0" 2 .RoundToNearest) (parseD "0" 2 .RoundToNearest) =
        .err .UndefinedOperationError
    ∧ (Outcome.err (α := BigNumber) .UndefinedOperationError ≠
        .err .DivisionByZeroError) := by
  refine ⟨by decide, by decide, by decide⟩

/-- C6 (amended): for every finite NONZERO dividend and finite zero
divisor of equal precision, `Divide` and `Modulo` fail
`DivisionByZero`; a zero dividend instead fails `UndefinedOperation`
through the both-zero special case. -/
theorem C6_zero_divisor_error (a b : BigNumber) (av : Int)
    (haI : a.isInf = false) (haN : a.isNan = false)
    (hbI : b.isInf = false) (hbN : b.isNan = false)
    (hp : a.precision = b.precision)
    (hav : a.value = some av) (hbv : b.value = some 0)
    (hnz : av ≠ 0) :
    Divide a b = .err .DivisionByZeroError
    ∧ Modulo a b = .err .DivisionByZeroError := by
  constructor <;>
    simp [Divide, Modulo, checkPrecision, checkSpecialCases, IsZero,
      hp, haI, haN, hbI, hbN, hav, hbv, hnz]

/-- C6 witness: the amended statement at the concrete pair `1 / 0` at
precision 2. -/
theorem C6_zero_divisor_error_witness :
    Divide (parseD "1" 2 .RoundToNearest) (parseD "0" 2 .RoundToNearest) =
        .err .DivisionByZeroError
    ∧ Modulo (parseD "1" 2 .RoundToNearest) (parseD "0" 2 .RoundToNearest) =
        .err .DivisionByZeroError :=
  C6_zero_divisor_error (parseD "1" 2 .RoundToNearest)
    (parseD "0" 2 .RoundToNearest) 1
    (by decide) (by decide) (by decide) (by decide) (by decide) (by decide)
    (by decide) (by decide)

/-- C7: the claim states that the `Log` and `Exp` convergence loops are
bounded by an explicit maximum iteration count so that every call
terminates.  The Go loops have no iteration bound at all, and `Log` is
not even panic-free: on input `3` at precision 2 under `RoundToNearest`,
`Exp` yields 16, the double `applyRounding` collapses it to magnitude 0,
and the first Newton step divides by that zero, crashing inside the loop
(the model's fuel of 20 is ample: the panic is reached after 6 Taylor
iterations and before any Newton recursion). -/
theorem C7_log_crash :
    Log 20 (parseD "3" 2 .RoundToNearest) = .crash
    ∧ valueOf (Exp 20 (parseD "3" 2 .RoundToNearest)) = some 0 := by
  refine ⟨by decide, by decide⟩

/-- C8: the claim states that re-parsing `toDecimalString(x)` at `x`'s
precision and rounding mode yields a value equal to `x` for every finite
`x`.  For `x = parse("123.45", 2)` the stored magnitude is 78, the
rendering is `"0.78"`, and re-parsing `"0.78"` stores magnitude `-78`
(`0 - 78`), so `Equal` on the round trip returns `false`. -/
theorem C8_roundtrip :
    toDecimalString (parseD "123.45" 2 .RoundToNearest) = some ( "0.78".data)
    ∧ (parseD "123.45" 2 .RoundToNearest).value = some 78
    ∧ valueOf (NewBigNumber ( "0.78".data) 2 .RoundToNearest) = some (-78)
    ∧ Equal (parseD "123.45" 2 .RoundToNearest)
        (parseD "0.78" 2 .RoundToNearest) = some false := by
  refine ⟨by decide, by decide, by decide, by decide⟩

/-- C9: the claim states the comparisons are total boolean functions, and
in particular that a mixed comparison of an `Infinite`/`NotANumber` value
against a `Finite` one returns a boolean under a fixed total order rather
than crashing.  Two infinities and two NaNs do compare equal, but any
mixed comparison dereferences the special value's nil magnitude and
panics (`none`). -/
theorem C9_mixed_comparison :
    LessThan (parseD "123.45" 2 .RoundToNearest)
        (parseD "inf" 2 .RoundToNearest) = none
    ∧ Equal (parseD "123.45" 2 .RoundToNearest)
        (parseD "NaN" 2 .RoundToNearest) = none
    ∧ Equal (parseD "inf" 2 .RoundToNearest)
        (parseD "inf" 2 .RoundToNearest) = some true
    ∧ Equal (parseD "NaN" 2 .RoundToNearest)
        (parseD "NaN" 2 .RoundToNearest) = some true := by
  refine ⟨by decide, by decide, by decide, by decide⟩

/-- C10 counterexample: the claim states that under `RoundToEven` the
stored magnitude of `Add` is the raw sum increased by half of `10^p` and
integer-divided by `10^p`.  Adding `2000` and `1000` at precision 2 under
`RoundToEven` would then store `(3000 + 50) / 100 = 30`, but the code's
in-place tie test destroys the quotient and stores `30 % 10 = 0`. -/
theorem C10_even_counterexample :
    valueOf (Add (parseD "2000" 2 .RoundToEven)
        (parseD "1000" 2 .RoundToEven)) = some 0
    ∧ (((2000 : Int) + 1000 + (tenPow 2).ediv 2).ediv (tenPow 2) = 30)
    ∧ ((0 : Int) ≠ 30) := by
  refine ⟨by decide, by decide, by decide⟩

/-- C10 (amended): for finite operands of equal precision (not both
zero), the magnitude stored by `Add` and `Subtract` depends on the left
operand's rounding mode even though no precision change was requested:
`RoundUp`/`RoundDown` store the raw sum or difference unchanged;
`RoundToNearest` stores it increased by half of `10^p` and
integer-divided by `10^p`; `RoundToEven` computes that same quotient but
stores its remainder modulo 10, or 0 when that remainder is 5. -/
theorem C10_stored_magnitude (a b : BigNumber) (ap an bp bq : Int)
    (haI : a.isInf = false) (haN : a.isNan = false)
    (hbI : b.isInf = false) (hbN : b.isNan = false)
    (hp : a.precision = b.precision)
    (hap : a.positive = some ap) (han : a.negative = some an)
    (hbp : b.positive = some bp) (hbn : b.negative = some bq)
    (hav : a.value = some (ap - an)) (hbv : b.value = some (bp - bq))
    (hnz : ¬(ap - an = 0 ∧ bp - bq = 0)) :
    Add a b =
      .ok { positive := some (ap + bp), negative := some (an + bq),
            precision := a.precision, rounding := a.rounding,
            isInf := false, isNan := false,
            value := some (storedMagnitude a.rounding a.precision
              ((ap - an) + (bp - bq))) }
    ∧ Subtract a b =
      .ok { positive := some (ap - bp), negative := some (an - bq),
            precision := a.precision, rounding := a.rounding,
            isInf := false, isNan := false,
            value := some (storedMagnitude a.rounding a.precision
              ((ap - an) - (bp - bq))) } := by
  have key : checkOperands a b = .ok () := by
    unfold checkOperands checkPrecision checkSpecialCases IsZero
    rcases Classical.em (ap - an = 0) with hz | hz
    · have hz2 : bp - bq ≠ 0 := fun hc => hnz ⟨hz, hc⟩
      simp [hp, haI, haN, hbI, hbN, hav, hbv, hz, hz2]
    · simp [hp, haI, haN, hbI, hbN, hav, hbv, hz]
  have e1 : (ap + bp) - (an + bq) = (ap - an) + (bp - bq) := by ring
  have e2 : (ap - bp) - (an - bq) = (ap - an) - (bp - bq) := by ring
  constructor
  · simp only [Add, key, hap, han, hbp, hbn, e1, applyRounding_eq_storedMagnitude]
  · simp only [Subtract, key, hap, han, hbp, hbn, e2, applyRounding_eq_storedMagnitude]

/-- C10 witness: the amended statement at the concrete pair `2000 + 1000`
at precision 2 under `RoundToEven`, where the stored magnitude is
`storedMagnitude RoundToEven 2 3000 = 0`. -/
theorem C10_stored_magnitude_witness :
    Add (parseD "2000" 2 .RoundToEven) (parseD "1000" 2 .RoundToEven) =
      .ok { positive := some (2000 + 1000), negative := some (0 + 0),
            precision := (parseD "2000" 2 .RoundToEven).precision,
            rounding := (parseD "2000" 2 .RoundToEven).rounding,
            isInf := false, isNan := false,
            value := some (storedMagnitude (parseD "2000" 2 .RoundToEven).rounding
              (parseD "2000" 2 .RoundToEven).precision ((2000 - 0) + (1000 - 0))) } :=
  (C10_stored_magnitude (parseD "2000" 2 .RoundToEven)
      (parseD "1000" 2 .RoundToEven) 2000 0 1000 0
      (by decide) (by decide) (by decide) (by decide) (by decide) (by decide)
      (by decide) (by decide) (by decide) (by decide) (by decide) (by decide)).1

end BigNum
